import Mathlib

/-
Verification of the session-lifecycle core of the pairing server.

The embedding below translates the pairing/session logic of the server
(registry of active connections, the connection.update handler with its
two latches, and the pair, status and disconnect endpoints) into pure
Lean functions. External effects (the transport library, the file
system, timers) are modelled explicitly: the outcome of the pairing
promise, the success of logout, and zip/send success are parameters;
the file system and the registry are components of an explicit state.
-/

namespace PairingServer

/-- Keyed lookup in an association list, mirroring JavaScript Map.get:
the first entry with the key wins. -/
def lookupKey {α β : Type} [DecidableEq α] : List (α × β) → α → Option β
  | [], _ => none
  | p :: rest, k => if p.1 = k then some p.2 else lookupKey rest k

/-- Keyed removal from an association list, mirroring JavaScript Map.delete. -/
def removeKey {α β : Type} [DecidableEq α] : List (α × β) → α → List (α × β)
  | [], _ => []
  | p :: rest, k => if p.1 = k then removeKey rest k else p :: removeKey rest k

/-- Pointwise update of the value stored at a key. -/
def updateKey {α β : Type} [DecidableEq α] (m : List (α × β)) (k : α) (f : β → β) :
    List (α × β) :=
  m.map fun p => if p.1 = k then (p.1, f p.2) else p

/-- Removal of an element from a plain list (deleting an entry of the
file system, such as a session directory or a zip file). -/
def removeAll {α : Type} [DecidableEq α] : List α → α → List α
  | [], _ => []
  | x :: rest, a => if x = a then removeAll rest a else x :: removeAll rest a

/-- Digits-only normalization of a phone number: in the source,
number.replace of every non-digit character by the empty string. -/
def normalizeNumber (s : String) : String :=
  String.mk (s.toList.filter Char.isDigit)

/-- Status code emitted by the transport when the account was logged out. -/
def DisconnectReason.loggedOut : Nat := 401

/-- Status code emitted by the transport when access is forbidden. -/
def DisconnectReason.forbidden : Nat := 403

/-- Status code emitted by the transport when the connection was replaced. -/
def DisconnectReason.connectionReplaced : Nat := 440

/-- One transport socket: the readyState of its websocket
(0 connecting, 1 open, 2 closing, 3 closed) and whether the server
code has invoked close on it. -/
structure Conn where
  wsReadyState : Nat
  wsClosed : Bool
deriving DecidableEq

/-- The value stored in activeConnections for one identity: the id of
its transport, the session directory (keyed by the normalized number)
and the creation timestamp. -/
structure SessionEntry where
  connId : Nat
  sessionDir : String
  timestamp : Nat
deriving DecidableEq

/-- The state of the server process and of its file system:
activeConnections is the in-memory registry; dirs is the set of
existing per-identity credential directories (keyed by normalized
number); conns records every transport ever created, by id; zips is
the set of existing zip files. -/
structure ServerState where
  activeConnections : List (String × SessionEntry)
  dirs : List String
  conns : List (Nat × Conn)
  zips : List String
deriving DecidableEq

/-- The state of a freshly started server: empty registry, no
directories, no transports. -/
def emptyState : ServerState := ⟨[], [], [], []⟩

/-- Effect of conn.ws.close on a transport record. -/
def closeWs (c : Conn) : Conn := { c with wsReadyState := 3, wsClosed := true }

/-- One connection.update event as delivered to the handler:
the optional connection field, the qr flag, the status code carried by
lastDisconnect on a close, and the value of conn.authState.creds.registered
at the moment the event fires. -/
structure UpdateEvent where
  connection : Option String
  qr : Bool
  statusCode : Option Nat
  registered : Bool
deriving DecidableEq

/-- The two per-session latches captured by setupConnectionHandlers:
credsSent and pairingCodeRequested. -/
structure HandlerState where
  credsSent : Bool
  pairingCodeRequested : Bool
deriving DecidableEq

/-- Result of running the handler: final latches, final server state,
number of requestPairingCode invocations and number of credential
deliveries scheduled. -/
structure RunResult where
  hstate : HandlerState
  world : ServerState
  reqCount : Nat
  delivCount : Nat
deriving DecidableEq

/-- Readiness signal for the pairing-code request: a connecting event
or a QR event, as in the guard of the handler. -/
def isReadySignal (e : UpdateEvent) : Prop :=
  e.connection = some "connecting" ∨ e.qr = true

instance (e : UpdateEvent) : Decidable (isReadySignal e) := by
  unfold isReadySignal; infer_instance

/-- Terminal close statuses: loggedOut, forbidden, connectionReplaced. -/
def isTerminalClose (sc : Option Nat) : Prop :=
  sc = some DisconnectReason.loggedOut ∨ sc = some DisconnectReason.forbidden ∨
    sc = some DisconnectReason.connectionReplaced

instance (sc : Option Nat) : Decidable (isTerminalClose sc) := by
  unfold isTerminalClose; infer_instance

/-- The pairing-request block of the handler: if the event is a
readiness signal, the latch is unset and the credentials are not yet
registered, set the latch and invoke requestPairingCode (counted). -/
def pairingStep (hs : HandlerState) (e : UpdateEvent) : HandlerState × Nat :=
  if isReadySignal e ∧ hs.pairingCodeRequested = false ∧ e.registered = false then
    ({ hs with pairingCodeRequested := true }, 1)
  else (hs, 0)

/-- Cleanup performed by the terminal-close branch of the handler:
delete the session directory and remove the registry entry. -/
def cleanupSession (n : String) (st : ServerState) : ServerState :=
  { st with dirs := removeAll st.dirs n,
            activeConnections := removeKey st.activeConnections n }

/-- The connection-state block of the handler: terminal close triggers
cleanup, any other close only logs; open schedules the one-time
credential delivery guarded by credsSent; connecting only logs. -/
def connStep (n : String) (hs : HandlerState) (st : ServerState) (e : UpdateEvent) :
    HandlerState × ServerState × Nat :=
  if e.connection = some "close" then
    if isTerminalClose e.statusCode then (hs, cleanupSession n st, 0) else (hs, st, 0)
  else if e.connection = some "open" then
    if hs.credsSent = true then (hs, st, 0) else ({ hs with credsSent := true }, st, 1)
  else (hs, st, 0)

/-- One run of the connection.update handler on one event: the pairing
block followed by the connection-state block, as in the source. -/
def handleConnectionUpdate (n : String) (hs : HandlerState) (st : ServerState)
    (e : UpdateEvent) : RunResult :=
  let p := pairingStep hs e
  let c := connStep n p.1 st e
  ⟨c.1, c.2.1, p.2, c.2.2⟩

/-- The handler applied to a whole sequence of events, accumulating
the invocation counts. -/
def runHandler (n : String) (hs : HandlerState) (st : ServerState) :
    List UpdateEvent → RunResult
  | [] => ⟨hs, st, 0, 0⟩
  | e :: es =>
    let r := handleConnectionUpdate n hs st e
    let rest := runHandler n r.hstate r.world es
    ⟨rest.hstate, rest.world, r.reqCount + rest.reqCount, r.delivCount + rest.delivCount⟩

/-- The credential-delivery function sendCredsToUser: zip the session
directory, send it, unlink the zip; any error is caught and reported
as a false return value. The zipOk and sendOk parameters stand for the
success of the two external calls. -/
def sendCredsToUser (zipOk sendOk : Bool) (sessionDir : String) (st : ServerState) :
    Bool × ServerState :=
  if zipOk = false then (false, st)
  else
    let withZip : ServerState := { st with zips := (sessionDir ++ ".zip") :: st.zips }
    if sendOk = false then (false, withZip)
    else (true, { withZip with zips := removeAll withZip.zips (sessionDir ++ ".zip") })

/-- Outcome of the pairing promise awaited by the pair endpoint:
the callback delivered a code, the callback delivered an error, or the
30 second timer rejected first. -/
inductive PairOutcome
  | code (c : String)
  | failure (msg : String)
  | timeout
deriving DecidableEq

/-- Response of the pair endpoint. -/
inductive PairResponse
  | missingNumber
  | invalidNumber
  | success (pairingCode : String) (phoneNumber : String)
  | serverError (details : String)
deriving DecidableEq

/-- The cleanup block of the catch branch of the pair endpoint:
delete the session directory, close the websocket of the new
transport, remove the registry entry. -/
def pairFailureCleanup (st : ServerState) (normalized : String) (connId : Nat) :
    ServerState :=
  { st with dirs := removeAll st.dirs normalized,
            conns := updateKey st.conns connId closeWs,
            activeConnections := removeKey st.activeConnections normalized }

/-- The pair endpoint: validate the number, wipe and recreate the
session directory, create the transport, overwrite the registry entry,
then await the pairing promise; a code is returned as success, while a
callback error or the 30 second timeout throws into the catch branch,
which tears the partially-created session down and answers 500. -/
def apiPair (st : ServerState) (body : Option String) (now : Nat) (newConnId : Nat)
    (outcome : PairOutcome) : ServerState × PairResponse :=
  match body with
  | none => (st, .missingNumber)
  | some number =>
    let normalized := normalizeNumber number
    if normalized.length < 10 then (st, .invalidNumber)
    else
      let st1 : ServerState := { st with dirs := normalized :: removeAll st.dirs normalized }
      let st2 : ServerState := { st1 with conns := (newConnId, ⟨0, false⟩) :: st1.conns }
      let st3 : ServerState :=
        { st2 with activeConnections :=
            (normalized, ⟨newConnId, normalized, now⟩) ::
              removeKey st2.activeConnections normalized }
      match outcome with
      | .code c => (st3, .success c normalized)
      | .failure msg => (pairFailureCleanup st3 normalized newConnId, .serverError msg)
      | .timeout =>
          (pairFailureCleanup st3 normalized newConnId,
            .serverError "Pairing code request timeout")

/-- Whether the websocket of the transport with the given id reads as
open (readyState equal to 1); a missing socket reads as not open. -/
def connIsOpen (st : ServerState) (id : Nat) : Bool :=
  match lookupKey st.conns id with
  | some c => decide (c.wsReadyState = 1)
  | none => false

/-- Response of the status endpoint. -/
inductive StatusResponse
  | notFound
  | found (connected : Bool) (stateField : String) (timestamp : Nat) (uptime : Nat)
deriving DecidableEq

/-- The status endpoint: a missing registry entry answers the
no-active-connection shape; otherwise connected mirrors the websocket
readyState, the state field is the string open or closed, and uptime
is the difference between now and the stored timestamp. -/
def apiStatus (st : ServerState) (raw : String) (now : Nat) : StatusResponse :=
  match lookupKey st.activeConnections (normalizeNumber raw) with
  | none => .notFound
  | some entry =>
    let isOpen := connIsOpen st entry.connId
    .found isOpen (if isOpen = true then "open" else "closed") entry.timestamp
      (now - entry.timestamp)

/-- Response of the disconnect endpoint. -/
inductive DisconnectResponse
  | noActiveSession
  | success
  | serverError (msg : String)
deriving DecidableEq

/-- The disconnect endpoint: a missing registry entry answers the
no-active-connection shape with no side effect; otherwise logout,
websocket close, registry removal and directory deletion run inside a
single try block, so a throwing logout (logoutOk false) aborts all of
them and answers 500. -/
def apiDisconnect (st : ServerState) (raw : String) (logoutOk : Bool) :
    ServerState × DisconnectResponse :=
  match lookupKey st.activeConnections (normalizeNumber raw) with
  | none => (st, .noActiveSession)
  | some entry =>
    if logoutOk = true then
      ({ st with conns := updateKey st.conns entry.connId closeWs,
                 activeConnections := removeKey st.activeConnections (normalizeNumber raw),
                 dirs := removeAll st.dirs entry.sessionDir }, .success)
    else (st, .serverError "logout failed")

/-- A close event as delivered by the transport: connection is the
string close, no qr, the given status code. -/
def closeEvent (sc : Option Nat) (reg : Bool) : UpdateEvent :=
  { connection := some "close", qr := false, statusCode := sc, registered := reg }

/-- A step of the environment after registration: either the handler of
some session processes a connection.update event, or the readyState of
a websocket changes. -/
inductive MonitorStep
  | update (n : String) (e : UpdateEvent)
  | wsChange (id : Nat) (rs : Nat)
deriving DecidableEq

/-- Effect of one monitor step on the server state. The handler latches
do not affect the state effect, so they are fixed at their initial
values here. -/
def applyMonitorStep (st : ServerState) : MonitorStep → ServerState
  | .update n e => (handleConnectionUpdate n ⟨false, false⟩ st e).world
  | .wsChange id rs =>
      { st with conns := updateKey st.conns id fun c => { c with wsReadyState := rs } }

/-- Effect of a sequence of monitor steps. -/
def applyMonitorSteps (st : ServerState) (steps : List MonitorStep) : ServerState :=
  steps.foldl applyMonitorStep st

/-- Whether a monitor step removes the registry entry of the given
identity: only a terminal close processed by the handler of that
identity does. -/
def removesEntry (norm : String) : MonitorStep → Prop
  | .update n e => n = norm ∧ e.connection = some "close" ∧ isTerminalClose e.statusCode
  | .wsChange _ _ => False

instance (norm : String) : (s : MonitorStep) → Decidable (removesEntry norm s)
  | .update n e => by unfold removesEntry; infer_instance
  | .wsChange _ _ => by unfold removesEntry; exact inferInstanceAs (Decidable False)

/-
Generic lemmas about the association-list and list operations.
-/

theorem lookupKey_removeKey_self {α β : Type} [DecidableEq α] (m : List (α × β)) (k : α) :
    lookupKey (removeKey m k) k = none := by
  induction m with
  | nil => rfl
  | cons p rest ih =>
    by_cases h : p.1 = k
    · simpa [removeKey, h] using ih
    · simp [removeKey, lookupKey, h, ih]

theorem lookupKey_removeKey_ne {α β : Type} [DecidableEq α] (m : List (α × β)) (k k2 : α)
    (h : k2 ≠ k) : lookupKey (removeKey m k) k2 = lookupKey m k2 := by
  induction m with
  | nil => rfl
  | cons p rest ih =>
    by_cases hp : p.1 = k
    · have hne : p.1 ≠ k2 := by rw [hp]; exact Ne.symm h
      simp [removeKey, lookupKey, hp, hne, h, Ne.symm h, ih]
    · by_cases hp2 : p.1 = k2
      · simp [removeKey, lookupKey, hp, hp2, h, Ne.symm h]
      · simp [removeKey, lookupKey, hp, hp2, h, Ne.symm h, ih]

theorem lookupKey_updateKey {α β : Type} [DecidableEq α] (m : List (α × β)) (k : α)
    (f : β → β) : lookupKey (updateKey m k f) k = Option.map f (lookupKey m k) := by
  induction m with
  | nil => rfl
  | cons p rest ih =>
    by_cases hp : p.1 = k
    · simp [updateKey, lookupKey, hp]
    · simpa [updateKey, lookupKey, hp] using ih

theorem lookupKey_updateKey_ne {α β : Type} [DecidableEq α] (m : List (α × β)) (k k2 : α)
    (f : β → β) (h : k2 ≠ k) :
    lookupKey (updateKey m k f) k2 = lookupKey m k2 := by
  induction m with
  | nil => rfl
  | cons p rest ih =>
    by_cases hp : p.1 = k
    · have hne : p.1 ≠ k2 := by rw [hp]; exact Ne.symm h
      simp only [updateKey, List.map_cons] at ih ⊢
      rw [if_pos hp]
      simp [lookupKey, hne, h, Ne.symm h, ih]
    · by_cases hp2 : p.1 = k2
      · simp only [updateKey, List.map_cons] at ih ⊢
        rw [if_neg hp]
        simp [lookupKey, hp2]
      · simp only [updateKey, List.map_cons] at ih ⊢
        rw [if_neg hp]
        simp [lookupKey, hp2, ih]

theorem not_mem_removeAll_self {α : Type} [DecidableEq α] (l : List α) (a : α) :
    a ∉ removeAll l a := by
  induction l with
  | nil => simp [removeAll]
  | cons x rest ih =>
    by_cases hx : x = a
    · simpa [removeAll, hx] using ih
    · simp [removeAll, hx, ih]
      exact fun hh => hx hh.symm

/-
Lemmas about the two blocks of the connection.update handler.
-/

theorem pairingStep_latch_true (hs : HandlerState) (e : UpdateEvent)
    (h : hs.pairingCodeRequested = true) : pairingStep hs e = (hs, 0) := by
  unfold pairingStep
  rw [if_neg]
  intro hc
  rw [h] at hc
  exact Bool.noConfusion hc.2.1

theorem pairingStep_no_fire (hs : HandlerState) (e : UpdateEvent)
    (h : ¬(isReadySignal e ∧ e.registered = false)) : pairingStep hs e = (hs, 0) := by
  unfold pairingStep
  rw [if_neg]
  intro hc
  exact h ⟨hc.1, hc.2.2⟩

theorem pairingStep_fires (hs : HandlerState) (e : UpdateEvent)
    (h1 : isReadySignal e) (h2 : e.registered = false) (h3 : hs.pairingCodeRequested = false) :
    pairingStep hs e = ({ hs with pairingCodeRequested := true }, 1) := by
  unfold pairingStep
  rw [if_pos ⟨h1, h3, h2⟩]

theorem pairingStep_credsSent (hs : HandlerState) (e : UpdateEvent) :
    ((pairingStep hs e).1).credsSent = hs.credsSent := by
  unfold pairingStep
  split <;> rfl

theorem connStep_latch (n : String) (hs : HandlerState) (st : ServerState) (e : UpdateEvent) :
    ((connStep n hs st e).1).pairingCodeRequested = hs.pairingCodeRequested := by
  unfold connStep
  split
  · split <;> rfl
  · split
    · split <;> rfl
    · rfl

theorem connStep_creds_true (n : String) (hs : HandlerState) (st : ServerState)
    (e : UpdateEvent) (h : hs.credsSent = true) :
    (connStep n hs st e).1 = hs ∧ (connStep n hs st e).2.2 = 0 := by
  unfold connStep
  by_cases h1 : e.connection = some "close"
  · rw [if_pos h1]
    by_cases h2 : isTerminalClose e.statusCode
    · rw [if_pos h2]; exact ⟨rfl, rfl⟩
    · rw [if_neg h2]; exact ⟨rfl, rfl⟩
  · rw [if_neg h1]
    by_cases h3 : e.connection = some "open"
    · rw [if_pos h3, if_pos h]; exact ⟨rfl, rfl⟩
    · rw [if_neg h3]; exact ⟨rfl, rfl⟩

theorem connStep_cases (n : String) (hs : HandlerState) (st : ServerState) (e : UpdateEvent) :
    (connStep n hs st e).2.2 = 0 ∧ ((connStep n hs st e).1).credsSent = hs.credsSent ∨
      (connStep n hs st e).2.2 = 1 ∧ ((connStep n hs st e).1).credsSent = true := by
  unfold connStep
  by_cases h1 : e.connection = some "close"
  · rw [if_pos h1]
    by_cases h2 : isTerminalClose e.statusCode
    · rw [if_pos h2]; exact Or.inl ⟨rfl, rfl⟩
    · rw [if_neg h2]; exact Or.inl ⟨rfl, rfl⟩
  · rw [if_neg h1]
    by_cases h3 : e.connection = some "open"
    · rw [if_pos h3]
      by_cases h4 : hs.credsSent = true
      · rw [if_pos h4]; exact Or.inl ⟨rfl, rfl⟩
      · rw [if_neg h4]; exact Or.inr ⟨rfl, rfl⟩
    · rw [if_neg h3]; exact Or.inl ⟨rfl, rfl⟩

/-
Component equations of handleConnectionUpdate and runHandler.
-/

theorem handle_reqCount (n : String) (hs : HandlerState) (st : ServerState) (e : UpdateEvent) :
    (handleConnectionUpdate n hs st e).reqCount = (pairingStep hs e).2 := rfl

theorem handle_delivCount (n : String) (hs : HandlerState) (st : ServerState) (e : UpdateEvent) :
    (handleConnectionUpdate n hs st e).delivCount = (connStep n (pairingStep hs e).1 st e).2.2 :=
  rfl

theorem handle_hstate (n : String) (hs : HandlerState) (st : ServerState) (e : UpdateEvent) :
    (handleConnectionUpdate n hs st e).hstate = (connStep n (pairingStep hs e).1 st e).1 := rfl

theorem handle_world (n : String) (hs : HandlerState) (st : ServerState) (e : UpdateEvent) :
    (handleConnectionUpdate n hs st e).world = (connStep n (pairingStep hs e).1 st e).2.1 := rfl

theorem runHandler_cons_reqCount (n : String) (hs : HandlerState) (st : ServerState)
    (e : UpdateEvent) (es : List UpdateEvent) :
    (runHandler n hs st (e :: es)).reqCount =
      (handleConnectionUpdate n hs st e).reqCount +
        (runHandler n (handleConnectionUpdate n hs st e).hstate
          (handleConnectionUpdate n hs st e).world es).reqCount := rfl

theorem runHandler_cons_delivCount (n : String) (hs : HandlerState) (st : ServerState)
    (e : UpdateEvent) (es : List UpdateEvent) :
    (runHandler n hs st (e :: es)).delivCount =
      (handleConnectionUpdate n hs st e).delivCount +
        (runHandler n (handleConnectionUpdate n hs st e).hstate
          (handleConnectionUpdate n hs st e).world es).delivCount := rfl

theorem runHandler_cons_hstate (n : String) (hs : HandlerState) (st : ServerState)
    (e : UpdateEvent) (es : List UpdateEvent) :
    (runHandler n hs st (e :: es)).hstate =
      (runHandler n (handleConnectionUpdate n hs st e).hstate
        (handleConnectionUpdate n hs st e).world es).hstate := rfl

/-
Behaviour of the handler over whole event sequences.
-/

theorem run_latch_true (n : String) (es : List UpdateEvent) :
    ∀ (hs : HandlerState) (st : ServerState), hs.pairingCodeRequested = true →
      (runHandler n hs st es).reqCount = 0 ∧
        ((runHandler n hs st es).hstate).pairingCodeRequested = true := by
  induction es with
  | nil => exact fun hs st h => ⟨rfl, h⟩
  | cons e es ih =>
    intro hs st h
    have hp : pairingStep hs e = (hs, 0) := pairingStep_latch_true hs e h
    have hl : ((handleConnectionUpdate n hs st e).hstate).pairingCodeRequested = true := by
      rw [handle_hstate, connStep_latch, hp]
      exact h
    have hr : (handleConnectionUpdate n hs st e).reqCount = 0 := by
      rw [handle_reqCount, hp]
    obtain ⟨ih1, ih2⟩ :=
      ih (handleConnectionUpdate n hs st e).hstate (handleConnectionUpdate n hs st e).world hl
    constructor
    · rw [runHandler_cons_reqCount, hr, ih1]
    · rw [runHandler_cons_hstate]
      exact ih2

theorem run_no_signal (n : String) (es : List UpdateEvent) :
    ∀ (hs : HandlerState) (st : ServerState),
      (∀ e ∈ es, ¬(isReadySignal e ∧ e.registered = false)) →
      (runHandler n hs st es).reqCount = 0 ∧
        ((runHandler n hs st es).hstate).pairingCodeRequested = hs.pairingCodeRequested := by
  induction es with
  | nil => exact fun hs st _ => ⟨rfl, rfl⟩
  | cons e es ih =>
    intro hs st h
    have he : ¬(isReadySignal e ∧ e.registered = false) := h e (List.mem_cons_self e es)
    have hp : pairingStep hs e = (hs, 0) := pairingStep_no_fire hs e he
    have hl : ((handleConnectionUpdate n hs st e).hstate).pairingCodeRequested =
        hs.pairingCodeRequested := by
      rw [handle_hstate, connStep_latch, hp]
    have hr : (handleConnectionUpdate n hs st e).reqCount = 0 := by
      rw [handle_reqCount, hp]
    obtain ⟨ih1, ih2⟩ := ih (handleConnectionUpdate n hs st e).hstate
      (handleConnectionUpdate n hs st e).world (fun e2 he2 => h e2 (List.mem_cons_of_mem e he2))
    constructor
    · rw [runHandler_cons_reqCount, hr, ih1]
    · rw [runHandler_cons_hstate, ih2, hl]

theorem run_fires (n : String) (es : List UpdateEvent) :
    ∀ (hs : HandlerState) (st : ServerState), hs.pairingCodeRequested = false →
      (∃ e ∈ es, isReadySignal e ∧ e.registered = false) →
      (runHandler n hs st es).reqCount = 1 ∧
        ((runHandler n hs st es).hstate).pairingCodeRequested = true := by
  induction es with
  | nil =>
    intro hs st _ hex
    exact absurd hex (by simp)
  | cons e es ih =>
    intro hs st h hex
    by_cases he : isReadySignal e ∧ e.registered = false
    · have hp : pairingStep hs e = ({ hs with pairingCodeRequested := true }, 1) :=
        pairingStep_fires hs e he.1 he.2 h
      have hl : ((handleConnectionUpdate n hs st e).hstate).pairingCodeRequested = true := by
        rw [handle_hstate, connStep_latch, hp]
      have hr : (handleConnectionUpdate n hs st e).reqCount = 1 := by
        rw [handle_reqCount, hp]
      obtain ⟨r1, r2⟩ := run_latch_true n es (handleConnectionUpdate n hs st e).hstate
        (handleConnectionUpdate n hs st e).world hl
      constructor
      · rw [runHandler_cons_reqCount, hr, r1]
      · rw [runHandler_cons_hstate]
        exact r2
    · have hp : pairingStep hs e = (hs, 0) := pairingStep_no_fire hs e he
      have hl : ((handleConnectionUpdate n hs st e).hstate).pairingCodeRequested = false := by
        rw [handle_hstate, connStep_latch, hp]
        exact h
      have hr : (handleConnectionUpdate n hs st e).reqCount = 0 := by
        rw [handle_reqCount, hp]
      have hex2 : ∃ e2 ∈ es, isReadySignal e2 ∧ e2.registered = false := by
        obtain ⟨e2, hmem, hprop⟩ := hex
        rcases List.mem_cons.mp hmem with rfl | hmem2
        · exact absurd hprop he
        · exact ⟨e2, hmem2, hprop⟩
      obtain ⟨ih1, ih2⟩ := ih (handleConnectionUpdate n hs st e).hstate
        (handleConnectionUpdate n hs st e).world hl hex2
      constructor
      · rw [runHandler_cons_reqCount, hr, ih1]
      · rw [runHandler_cons_hstate]
        exact ih2

theorem run_creds_true (n : String) (es : List UpdateEvent) :
    ∀ (hs : HandlerState) (st : ServerState), hs.credsSent = true →
      (runHandler n hs st es).delivCount = 0 := by
  induction es with
  | nil => exact fun hs st _ => rfl
  | cons e es ih =>
    intro hs st h
    have hc : ((pairingStep hs e).1).credsSent = true := by
      rw [pairingStep_credsSent]
      exact h
    obtain ⟨hcs1, hcs2⟩ := connStep_creds_true n (pairingStep hs e).1 st e hc
    have hd : (handleConnectionUpdate n hs st e).delivCount = 0 := by
      rw [handle_delivCount]
      exact hcs2
    have hl : ((handleConnectionUpdate n hs st e).hstate).credsSent = true := by
      rw [handle_hstate, hcs1]
      exact hc
    rw [runHandler_cons_delivCount, hd, ih _ _ hl]

theorem run_deliv_le_one (n : String) (es : List UpdateEvent) :
    ∀ (hs : HandlerState) (st : ServerState), (runHandler n hs st es).delivCount ≤ 1 := by
  induction es with
  | nil => exact fun hs st => Nat.zero_le 1
  | cons e es ih =>
    intro hs st
    rcases connStep_cases n (pairingStep hs e).1 st e with ⟨h0, _⟩ | ⟨h1, htrue⟩
    · have hd : (handleConnectionUpdate n hs st e).delivCount = 0 := by
        rw [handle_delivCount]
        exact h0
      rw [runHandler_cons_delivCount, hd]
      simpa using ih (handleConnectionUpdate n hs st e).hstate
        (handleConnectionUpdate n hs st e).world
    · have hd : (handleConnectionUpdate n hs st e).delivCount = 1 := by
        rw [handle_delivCount]
        exact h1
      have hl : ((handleConnectionUpdate n hs st e).hstate).credsSent = true := by
        rw [handle_hstate]
        exact htrue
      rw [runHandler_cons_delivCount, hd,
        run_creds_true n es (handleConnectionUpdate n hs st e).hstate
          (handleConnectionUpdate n hs st e).world hl]

theorem connStep_close (n : String) (hs : HandlerState) (st : ServerState) (e : UpdateEvent)
    (h : e.connection = some "close") :
    connStep n hs st e =
      if isTerminalClose e.statusCode then (hs, cleanupSession n st, 0) else (hs, st, 0) := by
  unfold connStep
  rw [if_pos h]

theorem connStep_world (n : String) (hs : HandlerState) (st : ServerState) (e : UpdateEvent) :
    (connStep n hs st e).2.1 =
      if e.connection = some "close" ∧ isTerminalClose e.statusCode then cleanupSession n st
      else st := by
  unfold connStep
  by_cases h1 : e.connection = some "close"
  · rw [if_pos h1]
    by_cases h2 : isTerminalClose e.statusCode
    · rw [if_pos h2, if_pos ⟨h1, h2⟩]
    · rw [if_neg h2, if_neg (fun hc => h2 hc.2)]
  · rw [if_neg h1,
      if_neg (show ¬(e.connection = some "close" ∧ isTerminalClose e.statusCode) from
        fun hc => h1 hc.1)]
    by_cases h3 : e.connection = some "open"
    · rw [if_pos h3]
      by_cases h4 : hs.credsSent = true
      · rw [if_pos h4]
      · rw [if_neg h4]
    · rw [if_neg h3]

theorem handleConnectionUpdate_eq (n : String) (hs : HandlerState) (st : ServerState)
    (e : UpdateEvent) :
    handleConnectionUpdate n hs st e =
      ⟨(connStep n (pairingStep hs e).1 st e).1, (connStep n (pairingStep hs e).1 st e).2.1,
        (pairingStep hs e).2, (connStep n (pairingStep hs e).1 st e).2.2⟩ := rfl

theorem applyMonitorStep_lookup (st : ServerState) (norm : String) (s : MonitorStep)
    (h : ¬ removesEntry norm s) :
    lookupKey ((applyMonitorStep st s).activeConnections) norm =
      lookupKey st.activeConnections norm := by
  cases s with
  | update n e =>
    show lookupKey ((handleConnectionUpdate n ⟨false, false⟩ st e).world).activeConnections norm =
      lookupKey st.activeConnections norm
    rw [handle_world, connStep_world]
    by_cases hc : e.connection = some "close" ∧ isTerminalClose e.statusCode
    · rw [if_pos hc]
      have hne : n ≠ norm := fun heq => h ⟨heq, hc.1, hc.2⟩
      show lookupKey (removeKey st.activeConnections n) norm = lookupKey st.activeConnections norm
      exact lookupKey_removeKey_ne st.activeConnections n norm (Ne.symm hne)
    · rw [if_neg hc]
  | wsChange id rs => rfl

theorem applyMonitorSteps_lookup (norm : String) (steps : List MonitorStep) :
    ∀ st : ServerState, (∀ s ∈ steps, ¬ removesEntry norm s) →
      lookupKey ((applyMonitorSteps st steps).activeConnections) norm =
        lookupKey st.activeConnections norm := by
  induction steps with
  | nil => exact fun st _ => rfl
  | cons s steps ih =>
    intro st h
    have h1 : applyMonitorSteps st (s :: steps) = applyMonitorSteps (applyMonitorStep st s) steps :=
      rfl
    rw [h1, ih (applyMonitorStep st s) (fun s2 hs2 => h s2 (List.mem_cons_of_mem s hs2)),
      applyMonitorStep_lookup st norm s (h s (List.mem_cons_self s steps))]

theorem apiPair_code_lookup (st : ServerState) (number : String) (now newConnId : Nat)
    (c : String) (h : ¬ (normalizeNumber number).length < 10) :
    lookupKey ((apiPair st (some number) now newConnId (.code c)).1).activeConnections
      (normalizeNumber number) = some ⟨newConnId, normalizeNumber number, now⟩ := by
  simp only [apiPair]
  rw [if_neg h]
  simp [lookupKey]

/-
Claim theorems.
-/

/-- C1, counterexample: when the pairing wait of a registration request
for a fresh valid identity reaches the 30-second deadline, the catch
branch of the pair endpoint runs and tears the session down, so after
the timeout response the registry entry does NOT still exist and the
credential directory IS deleted, contrary to the claim. -/
theorem spec_C1_cex :
    (apiPair emptyState (some "2348109860102") 0 0 .timeout).2 =
        .serverError "Pairing code request timeout" ∧
      lookupKey ((apiPair emptyState (some "2348109860102") 0 0 .timeout).1).activeConnections
        "2348109860102" = none ∧
      "2348109860102" ∉ ((apiPair emptyState (some "2348109860102") 0 0 .timeout).1).dirs := by
  refine ⟨rfl, rfl, ?_⟩
  decide

/-- C1, amended: for every registration request whose pairing-code wait
reaches the 30-second deadline, the caller receives a timeout error and
the session IS torn down by the failure-cleanup path of the endpoint:
the registry entry of the identity is removed, its credential directory
is deleted, and the websocket of its transport is closed before the
timeout response is sent. -/
theorem spec_C1_amended (st : ServerState) (number : String) (now newConnId : Nat)
    (h : 10 ≤ (normalizeNumber number).length) :
    (apiPair st (some number) now newConnId .timeout).2 =
        .serverError "Pairing code request timeout" ∧
      lookupKey ((apiPair st (some number) now newConnId .timeout).1).activeConnections
        (normalizeNumber number) = none ∧
      (normalizeNumber number) ∉ ((apiPair st (some number) now newConnId .timeout).1).dirs ∧
      lookupKey ((apiPair st (some number) now newConnId .timeout).1).conns newConnId =
        some ⟨3, true⟩ := by
  have hlt : ¬ (normalizeNumber number).length < 10 := Nat.not_lt.mpr h
  refine ⟨?_, ?_, ?_, ?_⟩
  · simp only [apiPair]
    rw [if_neg hlt]
  · simp only [apiPair]
    rw [if_neg hlt]
    exact lookupKey_removeKey_self _ _
  · simp only [apiPair]
    rw [if_neg hlt]
    exact not_mem_removeAll_self _ _
  · simp only [apiPair]
    rw [if_neg hlt]
    show lookupKey (updateKey ((newConnId, ⟨0, false⟩) :: st.conns) newConnId closeWs)
      newConnId = some ⟨3, true⟩
    rw [lookupKey_updateKey]
    simp [lookupKey, closeWs]

/-- Witness for C1: the amended theorem applied to the fresh server
state and a concrete valid number. -/
theorem spec_C1_witness :
    (apiPair emptyState (some "2348109860102") 7 3 .timeout).2 =
        .serverError "Pairing code request timeout" ∧
      lookupKey ((apiPair emptyState (some "2348109860102") 7 3 .timeout).1).activeConnections
        (normalizeNumber "2348109860102") = none ∧
      (normalizeNumber "2348109860102") ∉
        ((apiPair emptyState (some "2348109860102") 7 3 .timeout).1).dirs ∧
      lookupKey ((apiPair emptyState (some "2348109860102") 7 3 .timeout).1).conns 3 =
        some ⟨3, true⟩ :=
  spec_C1_amended emptyState "2348109860102" 7 3 (by decide)

/-- C2: the readiness signals of the handler are the connecting event
and the QR event; under any number of them in any order, with the
credential material not yet registered, requestPairingCode is invoked
exactly once, and the pairingRequested latch goes false to true exactly
once and is never reset: once true, any further event sequence causes
zero further invocations and leaves the latch true. In the settle-timer
variant of the endpoint the timer path is the sole trigger and performs
a single direct invocation. -/
theorem spec_C2 (n : String) (b : Bool) (st : ServerState) (es : List UpdateEvent)
    (hready : ∃ e ∈ es, isReadySignal e ∧ e.registered = false) :
    (runHandler n ⟨b, false⟩ st es).reqCount = 1 ∧
      ((runHandler n ⟨b, false⟩ st es).hstate).pairingCodeRequested = true ∧
      ∀ (b2 : Bool) (st2 : ServerState) (es2 : List UpdateEvent),
        (runHandler n ⟨b2, true⟩ st2 es2).reqCount = 0 ∧
          ((runHandler n ⟨b2, true⟩ st2 es2).hstate).pairingCodeRequested = true := by
  obtain ⟨h1, h2⟩ := run_fires n es ⟨b, false⟩ st rfl hready
  exact ⟨h1, h2, fun b2 st2 es2 => run_latch_true n es2 ⟨b2, true⟩ st2 rfl⟩

/-- Witness for C2: two concurrent readiness signals (a connecting
event and a QR event) on a fresh session yield exactly one invocation. -/
theorem spec_C2_witness :
    (runHandler "2348109860102" ⟨false, false⟩ emptyState
        [⟨some "connecting", false, none, false⟩, ⟨none, true, none, false⟩]).reqCount = 1 ∧
      ((runHandler "2348109860102" ⟨false, false⟩ emptyState
        [⟨some "connecting", false, none, false⟩,
          ⟨none, true, none, false⟩]).hstate).pairingCodeRequested = true ∧
      ∀ (b2 : Bool) (st2 : ServerState) (es2 : List UpdateEvent),
        (runHandler "2348109860102" ⟨b2, true⟩ st2 es2).reqCount = 0 ∧
          ((runHandler "2348109860102" ⟨b2, true⟩ st2 es2).hstate).pairingCodeRequested = true :=
  spec_C2 "2348109860102" false emptyState
    [⟨some "connecting", false, none, false⟩, ⟨none, true, none, false⟩] (by decide)

/-- C3: under any event sequence (in particular repeated open events),
the credential-delivery side effect is scheduled at most once per
session lifetime, and a delivery failure leaves the registry, the
credential directories and the transports unchanged. -/
theorem spec_C3 (n : String) (hs : HandlerState) (st : ServerState) (es : List UpdateEvent) :
    (runHandler n hs st es).delivCount ≤ 1 ∧
      ∀ (zipOk sendOk : Bool) (dir : String) (st2 : ServerState),
        ((sendCredsToUser zipOk sendOk dir st2).2).activeConnections = st2.activeConnections ∧
          ((sendCredsToUser zipOk sendOk dir st2).2).dirs = st2.dirs ∧
          ((sendCredsToUser zipOk sendOk dir st2).2).conns = st2.conns := by
  refine ⟨run_deliv_le_one n es hs st, ?_⟩
  intro zipOk sendOk dir st2
  unfold sendCredsToUser
  by_cases hz : zipOk = false
  · rw [if_pos hz]
    exact ⟨rfl, rfl, rfl⟩
  · rw [if_neg hz]
    by_cases hsnd : sendOk = false
    · rw [if_pos hsnd]
      exact ⟨rfl, rfl, rfl⟩
    · rw [if_neg hsnd]
      exact ⟨rfl, rfl, rfl⟩

/-- C4, counterexample: registering the same identity twice in
succession replaces the registry entry, but the transport of the first
session is never closed: after the second registration its record is
unchanged, with wsClosed still false — a leaked transport handle,
contrary to the claim that the first session is fully torn down. -/
theorem spec_C4_cex :
    lookupKey ((apiPair (apiPair emptyState (some "2348109860102") 0 0 (.code "ABC-123")).1
        (some "2348109860102") 5 1 (.code "DEF-456")).1).activeConnections "2348109860102" =
      some ⟨1, "2348109860102", 5⟩ ∧
    lookupKey ((apiPair (apiPair emptyState (some "2348109860102") 0 0 (.code "ABC-123")).1
        (some "2348109860102") 5 1 (.code "DEF-456")).1).conns 0 = some ⟨0, false⟩ := by
  decide

/-- C4, amended: registering the same identity twice in succession
deletes and recreates the credential directory and replaces the
registry entry with the second transport before the second session
becomes active, but the first transport is NOT closed: its record is
left exactly as created (websocket never closed), so its handle leaks. -/
theorem spec_C4_amended (st : ServerState) (number : String) (now now2 oldId newId : Nat)
    (c c2 : String) (hvalid : ¬ (normalizeNumber number).length < 10) (hne : oldId ≠ newId) :
    lookupKey ((apiPair st (some number) now oldId (.code c)).1).activeConnections
        (normalizeNumber number) = some ⟨oldId, normalizeNumber number, now⟩ ∧
      lookupKey ((apiPair (apiPair st (some number) now oldId (.code c)).1
          (some number) now2 newId (.code c2)).1).activeConnections (normalizeNumber number) =
        some ⟨newId, normalizeNumber number, now2⟩ ∧
      ((apiPair (apiPair st (some number) now oldId (.code c)).1
          (some number) now2 newId (.code c2)).1).dirs =
        normalizeNumber number ::
          removeAll (((apiPair st (some number) now oldId (.code c)).1).dirs)
            (normalizeNumber number) ∧
      normalizeNumber number ∈
        ((apiPair (apiPair st (some number) now oldId (.code c)).1
          (some number) now2 newId (.code c2)).1).dirs ∧
      lookupKey ((apiPair (apiPair st (some number) now oldId (.code c)).1
          (some number) now2 newId (.code c2)).1).conns oldId = some ⟨0, false⟩ := by
  refine ⟨apiPair_code_lookup st number now oldId c hvalid,
    apiPair_code_lookup _ number now2 newId c2 hvalid, ?_, ?_, ?_⟩
  · simp [apiPair, hvalid]
  · simp [apiPair, hvalid]
  · simp only [apiPair]
    rw [if_neg hvalid, if_neg hvalid]
    simp [lookupKey, hne, Ne.symm hne]

/-- Witness for C4: the amended theorem at a concrete double
registration of the same number with distinct transport ids. -/
theorem spec_C4_witness :
    lookupKey ((apiPair emptyState (some "2348109860102") 0 0 (.code "AAA")).1).activeConnections
        (normalizeNumber "2348109860102") = some ⟨0, normalizeNumber "2348109860102", 0⟩ ∧
      lookupKey ((apiPair (apiPair emptyState (some "2348109860102") 0 0 (.code "AAA")).1
          (some "2348109860102") 5 1 (.code "BBB")).1).activeConnections
        (normalizeNumber "2348109860102") = some ⟨1, normalizeNumber "2348109860102", 5⟩ ∧
      ((apiPair (apiPair emptyState (some "2348109860102") 0 0 (.code "AAA")).1
          (some "2348109860102") 5 1 (.code "BBB")).1).dirs =
        normalizeNumber "2348109860102" ::
          removeAll (((apiPair emptyState (some "2348109860102") 0 0 (.code "AAA")).1).dirs)
            (normalizeNumber "2348109860102") ∧
      normalizeNumber "2348109860102" ∈
        ((apiPair (apiPair emptyState (some "2348109860102") 0 0 (.code "AAA")).1
          (some "2348109860102") 5 1 (.code "BBB")).1).dirs ∧
      lookupKey ((apiPair (apiPair emptyState (some "2348109860102") 0 0 (.code "AAA")).1
          (some "2348109860102") 5 1 (.code "BBB")).1).conns 0 = some ⟨0, false⟩ :=
  spec_C4_amended emptyState "2348109860102" 0 5 0 1 "AAA" "BBB" (by decide) (by decide)

/-- C5: a registration request whose normalized digit count is below
10 is rejected with the invalid-number error before any side effect:
the whole server state (registry, directories, transports) is returned
unchanged, so no transport is created and no directory is made. -/
theorem spec_C5 (st : ServerState) (number : String) (now newConnId : Nat)
    (outcome : PairOutcome) (h : (normalizeNumber number).length < 10) :
    apiPair st (some number) now newConnId outcome = (st, .invalidNumber) := by
  simp only [apiPair]
  rw [if_pos h]

/-- Witness for C5: a 3-digit number is rejected with the state
unchanged. -/
theorem spec_C5_witness :
    apiPair emptyState (some "123") 0 0 (.code "X") = (emptyState, .invalidNumber) :=
  spec_C5 emptyState "123" 0 0 (.code "X") (by decide)

/-- C6: a close event triggers cleanup if and only if its status code
is one of the terminal statuses 401 (logged out), 403 (forbidden) or
440 (connection replaced): on a terminal status the handler deletes the
credential directory and removes the registry entry (cleanupSession,
after which the entry and directory are gone), and on any other status
it leaves the state, the latches and the counters entirely unchanged. -/
theorem spec_C6 (n : String) (hs : HandlerState) (st : ServerState) (sc : Option Nat)
    (reg : Bool) :
    handleConnectionUpdate n hs st (closeEvent sc reg) =
        (if isTerminalClose sc then ⟨hs, cleanupSession n st, 0, 0⟩
          else ⟨hs, st, 0, 0⟩ : RunResult) ∧
      lookupKey ((cleanupSession n st).activeConnections) n = none ∧
      n ∉ (cleanupSession n st).dirs := by
  refine ⟨?_, lookupKey_removeKey_self st.activeConnections n,
    not_mem_removeAll_self st.dirs n⟩
  have hready : ¬(isReadySignal (closeEvent sc reg) ∧ (closeEvent sc reg).registered = false) := by
    intro hc
    rcases hc.1 with h1 | h1
    · exact absurd (show ("close" : String) = "connecting" from Option.some.inj h1) (by decide)
    · exact Bool.noConfusion (show false = true from h1)
  have hp : pairingStep hs (closeEvent sc reg) = (hs, 0) :=
    pairingStep_no_fire hs (closeEvent sc reg) hready
  have hcs : connStep n hs st (closeEvent sc reg) =
      if isTerminalClose sc then (hs, cleanupSession n st, 0) else (hs, st, 0) :=
    connStep_close n hs st (closeEvent sc reg) rfl
  rw [handleConnectionUpdate_eq, hp]
  rw [show ((hs, 0) : HandlerState × Nat).1 = hs from rfl,
    show ((hs, 0) : HandlerState × Nat).2 = 0 from rfl, hcs]
  by_cases ht : isTerminalClose sc
  · rw [if_pos ht, if_pos ht]
  · rw [if_neg ht, if_neg ht]

/-- A server state with one active session, used to exercise the
disconnect endpoint when logout throws. -/
def stC7 : ServerState :=
  ⟨[("2348109860102", ⟨0, "2348109860102", 0⟩)], ["2348109860102"], [(0, ⟨1, false⟩)], []⟩

/-- C7, counterexample: on the explicit-disconnect path all cleanup
steps run inside one try block, so when the logout of the transport
throws, the remaining steps are all skipped: the websocket is not
closed, the registry entry survives and the credential directory
survives — the steps are not individually best-effort. -/
theorem spec_C7_cex :
    apiDisconnect stC7 "2348109860102" false = (stC7, .serverError "logout failed") ∧
      lookupKey ((apiDisconnect stC7 "2348109860102" false).1).activeConnections
        "2348109860102" = some ⟨0, "2348109860102", 0⟩ ∧
      "2348109860102" ∈ ((apiDisconnect stC7 "2348109860102" false).1).dirs ∧
      lookupKey ((apiDisconnect stC7 "2348109860102" false).1).conns 0 = some ⟨1, false⟩ := by
  decide

/-- C7, amended: the cleanup steps of the explicit-disconnect path are
guarded by a single error handler rather than being individually
best-effort: when logout succeeds, the websocket close, the registry
removal, the directory deletion all run and the entry and directory
are gone; when logout throws, none of the remaining steps is
performed — the state is returned unchanged with an error response. -/
theorem spec_C7_amended (st : ServerState) (raw : String) (entry : SessionEntry)
    (h : lookupKey st.activeConnections (normalizeNumber raw) = some entry) :
    apiDisconnect st raw true =
        ({ st with conns := updateKey st.conns entry.connId closeWs,
                   activeConnections := removeKey st.activeConnections (normalizeNumber raw),
                   dirs := removeAll st.dirs entry.sessionDir }, .success) ∧
      apiDisconnect st raw false = (st, .serverError "logout failed") ∧
      lookupKey (removeKey st.activeConnections (normalizeNumber raw)) (normalizeNumber raw) =
        none ∧
      entry.sessionDir ∉ removeAll st.dirs entry.sessionDir := by
  unfold apiDisconnect
  rw [h]
  exact ⟨rfl, rfl, lookupKey_removeKey_self _ _, not_mem_removeAll_self _ _⟩

/-- Witness for C7: the amended theorem at the one-session state. -/
theorem spec_C7_witness :
    apiDisconnect stC7 "2348109860102" true =
        ({ stC7 with conns := updateKey stC7.conns 0 closeWs,
                     activeConnections :=
                       removeKey stC7.activeConnections (normalizeNumber "2348109860102"),
                     dirs := removeAll stC7.dirs "2348109860102" }, .success) ∧
      apiDisconnect stC7 "2348109860102" false = (stC7, .serverError "logout failed") ∧
      lookupKey (removeKey stC7.activeConnections (normalizeNumber "2348109860102"))
        (normalizeNumber "2348109860102") = none ∧
      "2348109860102" ∉ removeAll stC7.dirs "2348109860102" :=
  spec_C7_amended stC7 "2348109860102" ⟨0, "2348109860102", 0⟩ (by decide)

/-- A reachable state after a successful registration followed by a
non-terminal close (status 515) and the websocket reaching the closed
readyState. -/
def stC8 : ServerState :=
  applyMonitorSteps (apiPair emptyState (some "2348109860102") 0 0 (.code "ABC-123")).1
    [.update "2348109860102" ⟨some "close", false, some 515, true⟩, .wsChange 0 3]

/-- C8, counterexample: after a successful registration and before any
terminal close or disconnect, the status endpoint reports the state
string closed whenever the websocket is not open — a value outside the
set of states {connecting, paired, open} asserted by the claim. -/
theorem spec_C8_cex :
    apiStatus stC8 "2348109860102" 100 = .found false "closed" 0 100 ∧
      (("closed" : String) ≠ "connecting" ∧ ("closed" : String) ≠ "paired" ∧
        ("closed" : String) ≠ "open") := by
  constructor
  · decide
  · decide

/-- C8, amended: after a successful registration and under any monitor
steps none of which is a terminal close for the identity, the status
endpoint never reports not-found, and reports the connected flag
(websocket readyState equal to 1), the creation timestamp, the uptime
now minus that timestamp, and a state string that is open when the
websocket is open and closed otherwise (not a value drawn from
connecting, paired, open). -/
theorem spec_C8_amended (st : ServerState) (number : String) (now newConnId now2 : Nat)
    (c : String) (steps : List MonitorStep)
    (hvalid : ¬ (normalizeNumber number).length < 10)
    (hsteps : ∀ s ∈ steps, ¬ removesEntry (normalizeNumber number) s) :
    apiStatus (applyMonitorSteps ((apiPair st (some number) now newConnId (.code c)).1) steps)
        number now2 ≠ .notFound ∧
      apiStatus (applyMonitorSteps ((apiPair st (some number) now newConnId (.code c)).1) steps)
          number now2 =
        .found
          (connIsOpen
            (applyMonitorSteps ((apiPair st (some number) now newConnId (.code c)).1) steps)
            newConnId)
          (if connIsOpen
              (applyMonitorSteps ((apiPair st (some number) now newConnId (.code c)).1) steps)
              newConnId = true
            then "open" else "closed")
          now (now2 - now) := by
  have hlk : lookupKey
      ((applyMonitorSteps ((apiPair st (some number) now newConnId (.code c)).1)
        steps).activeConnections) (normalizeNumber number) =
      some ⟨newConnId, normalizeNumber number, now⟩ := by
    rw [applyMonitorSteps_lookup (normalizeNumber number) steps _ hsteps,
      apiPair_code_lookup st number now newConnId c hvalid]
  constructor
  · unfold apiStatus
    rw [hlk]
    intro hcontr
    exact StatusResponse.noConfusion hcontr
  · unfold apiStatus
    rw [hlk]

/-- Witness for C8: the amended theorem after one registration and a
websocket state change to open. -/
theorem spec_C8_witness :
    apiStatus
        (applyMonitorSteps ((apiPair emptyState (some "2348109860102") 0 0 (.code "ABC")).1)
          [.wsChange 0 1]) "2348109860102" 7 ≠ .notFound ∧
      apiStatus
          (applyMonitorSteps ((apiPair emptyState (some "2348109860102") 0 0 (.code "ABC")).1)
            [.wsChange 0 1]) "2348109860102" 7 =
        .found
          (connIsOpen
            (applyMonitorSteps ((apiPair emptyState (some "2348109860102") 0 0 (.code "ABC")).1)
              [.wsChange 0 1]) 0)
          (if connIsOpen
              (applyMonitorSteps ((apiPair emptyState (some "2348109860102") 0 0 (.code "ABC")).1)
                [.wsChange 0 1]) 0 = true
            then "open" else "closed")
          0 (7 - 0) :=
  spec_C8_amended emptyState "2348109860102" 0 0 7 "ABC" [.wsChange 0 1] (by decide) (by decide)

/-- C9: disconnecting an identity with no entry in the registry answers
the no-active-session shape and performs no side effect: the whole
server state — registry, every transport, every credential directory —
is returned unchanged. -/
theorem spec_C9 (st : ServerState) (raw : String) (logoutOk : Bool)
    (h : lookupKey st.activeConnections (normalizeNumber raw) = none) :
    apiDisconnect st raw logoutOk = (st, .noActiveSession) := by
  unfold apiDisconnect
  rw [h]

/-- Witness for C9: disconnect on the fresh empty server. -/
theorem spec_C9_witness :
    apiDisconnect emptyState "2348109860102" true = (emptyState, .noActiveSession) :=
  spec_C9 emptyState "2348109860102" true rfl

/-- C10: when the credential material is already registered (a restored
session), readiness signals never trigger a pairing-code request: over
any event sequence in which every event carries registered true, zero
invocations occur, and in general an invocation on an event implies
that the event carried registered false. -/
theorem spec_C10 (n : String) (hs : HandlerState) (st : ServerState) (es : List UpdateEvent)
    (hreg : ∀ e ∈ es, e.registered = true) :
    (runHandler n hs st es).reqCount = 0 ∧
      ∀ (hs2 : HandlerState) (st2 : ServerState) (e : UpdateEvent),
        0 < (handleConnectionUpdate n hs2 st2 e).reqCount → e.registered = false := by
  constructor
  · refine (run_no_signal n es hs st ?_).1
    intro e he hand
    rw [hreg e he] at hand
    exact Bool.noConfusion hand.2
  · intro hs2 st2 e hpos
    cases hr : e.registered
    · rfl
    · have hp : pairingStep hs2 e = (hs2, 0) := by
        refine pairingStep_no_fire hs2 e ?_
        intro hc
        rw [hr] at hc
        exact Bool.noConfusion hc.2
      rw [handle_reqCount, hp] at hpos
      exact absurd hpos (Nat.lt_irrefl 0)

/-- Witness for C10: a connecting event and a QR event on a restored
session (registered true) cause zero invocations. -/
theorem spec_C10_witness :
    (runHandler "2348109860102" ⟨false, false⟩ emptyState
        [⟨some "connecting", false, none, true⟩, ⟨none, true, none, true⟩]).reqCount = 0 ∧
      ∀ (hs2 : HandlerState) (st2 : ServerState) (e : UpdateEvent),
        0 < (handleConnectionUpdate "2348109860102" hs2 st2 e).reqCount →
          e.registered = false :=
  spec_C10 "2348109860102" ⟨false, false⟩ emptyState
    [⟨some "connecting", false, none, true⟩, ⟨none, true, none, true⟩] (by decide)

end PairingServer
